import Mathlib

/-!
Shallow embedding of the eMaps routing backend (src/backend/src) in Lean 4.

Conventions of the embedding:
* Rust machine integers (`u32`, `i32`, `i64`, `usize`) are modelled as `Nat` / `Int`;
  overflow never occurs in the quantities the claims talk about, and sentinel values
  such as `u32::max_value()` are kept as the explicit constant `U32MAX`.
* The haversine distance (`Coordinates::distance`, computed on `f64` by the external
  `geo` crate) is floating point and is therefore modelled as an explicit parameter
  `dist : Coordinates → Coordinates → Nat` that is threaded through every function
  that calls it.  Concrete witnesses instantiate it with an executable stand-in.
* The spatial cell key `(lat * 1e-7 * 10).round()` is the exact integer rounding
  `round(lat / 10^6)` (half away from zero, like `f64::round`); this is embedded by
  integer arithmetic in `roundDivAway`.
* The comparison `f64::from(d) * 1.5 < f64::from(r)` in the charging-station filter
  is exact on `u32` inputs, hence embedded as `3 * d < 2 * r`.
* Fallible operations return `Except String`; a Rust panic (out-of-bounds
  `StableVec` index, `Vec::remove` on an empty vector, `unreachable` match arm)
  is modelled by a dedicated `panicked` result constructor; loops whose
  termination is not structural take explicit fuel, with exhaustion a dedicated
  constructor distinct from every behaviour of the Rust code.
-/

namespace EMaps

/-- `u32::max_value()`. -/
def U32MAX : Nat := 4294967295

/-- `osm::Coordinates`: a lat/lon pair of `i32` fixed-point decimicro degrees. -/
structure Coordinates where
  lat : Int
  lon : Int
deriving DecidableEq, Repr

/-- Rounding of `n / d` (for `d > 0`) to the nearest integer, halves away from
zero — the behaviour of `f64::round` on the exact quotient. -/
def roundDivAway (n : Int) (d : Int) : Int :=
  if 0 ≤ n then (2 * n + d) / (2 * d) else -((2 * (-n) + d) / (2 * d))

/-- `Coordinates::lat_rounded`: `(self.lat() * 10.0).round() as i32`,
i.e. `round(lat / 10^6)`. -/
def Coordinates.latRounded (c : Coordinates) : Int := roundDivAway c.lat 1000000

/-- `Coordinates::lon_rounded`: `(self.lon() * 10.0).round() as i32`. -/
def Coordinates.lonRounded (c : Coordinates) : Int := roundDivAway c.lon 1000000

/-- The spatial-grid cell key of a coordinate.  `Eq`/`Hash` of `Coordinates` in
the Rust code compare exactly this pair. -/
def Coordinates.key (c : Coordinates) : Int × Int := (c.latRounded, c.lonRounded)

/-- The haversine metric is modelled as an abstract distance function
(`Coordinates::distance` returns whole meters as `u32`). -/
abbrev Dist := Coordinates → Coordinates → Nat

/-- `osm::options::Transport`. -/
inductive Transport where
  | Car
  | Bike
  | Walk
  | All
  | CarBike
  | BikeWalk
deriving DecidableEq, Repr

/-- `Transport::contains` (options.rs:60-65). -/
def Transport.contains (self other : Transport) : Bool :=
  self = Transport.All || self = other ||
    (self = Transport.CarBike && (other = Transport.Car || other = Transport.Bike)) ||
    (self = Transport.BikeWalk && (other = Transport.Bike || other = Transport.Walk))

/-- `osm::options::Charging` (re-exported / used as `ChargingOptions`). -/
inductive Charging where
  | Car
  | Bike
  | CarBike
  | None
deriving DecidableEq, Repr

/-- `Charging::from(transport)` (options.rs:33-40).  (`from` is a reserved word
in Lean, hence `ofTransport`.) -/
def Charging.ofTransport (transport : Transport) : Charging :=
  match transport with
  | Transport.Bike => Charging.Bike
  | Transport.Car => Charging.Car
  | Transport.CarBike => Charging.CarBike
  | _ => Charging.None

/-- `Charging::contains` (options.rs:42-45).  Rust `||` binds looser than `&&`,
so the expression is a three-way disjunction whose first disjunct is
`self == CarBike`. -/
def Charging.contains (self other : Charging) : Bool :=
  self = Charging.CarBike || self = other ||
    (self = Charging.CarBike && (other = Charging.Car || other = Charging.Bike))

/-- `osm::options::Routing`. -/
inductive Routing where
  | Time
  | Distance
deriving DecidableEq, Repr

/-- `osm::highway::Kmh`. -/
structure Kmh where
  speed : Nat
deriving DecidableEq, Repr

/-- Rounding of `a / b` to the nearest natural number, halves up — `f64::round`
on a non-negative exact quotient. -/
def natRoundDiv (a b : Nat) : Nat := (2 * a + b) / (2 * b)

/-- `Kmh::time(distance)` (highway.rs:129-132): `(d / (speed / 3.6)).round()`.
The exact quotient is `18 * d / (5 * speed)`.  The `speed = 0` branch mirrors
the Rust `f32 → u32` saturating cast of `inf` (resp. `NaN → 0` for `0/0`). -/
def Kmh.time (self : Kmh) (distance : Nat) : Nat :=
  if self.speed = 0 then (if distance = 0 then 0 else U32MAX)
  else natRoundDiv (18 * distance) (5 * self.speed)

/-- `graph::Edge`. -/
structure Edge where
  source_index : Nat
  target_index : Nat
  transport : Transport
  distance : Nat
  max_speed : Kmh
deriving DecidableEq, Repr

/-- `Edge::cost(mode, routing)` (graph/mod.rs:235-243). -/
def Edge.cost (self : Edge) (mode : Transport) (routing : Routing) : Nat :=
  if mode = Transport.Car ∧ routing = Routing.Time then
    self.max_speed.time self.distance
  else
    self.distance

/-- `Edge::time(mode)` (graph/mod.rs:253-261); the catch-all arm panics, which
is modelled by `none`. -/
def Edge.time (self : Edge) (mode : Transport) : Option Nat :=
  match mode with
  | Transport.Car => some (self.max_speed.time self.distance)
  | Transport.Bike => some (Kmh.time ⟨20⟩ self.distance)
  | _ => none

/-- `graph::Node`. -/
structure Node where
  id : Int
  coordinates : Coordinates
deriving DecidableEq, Repr

/-- `graph::ChargingNode`. -/
structure ChargingNode where
  id : Int
  coordinates : Coordinates
  charging_options : Charging
deriving DecidableEq, Repr

/-- `graph::Graph`.  `cells` (a `HashMap<Coordinates, Vec<usize>>` keyed on the
rounded cell key) is modelled as an association list keyed by the cell key. -/
structure Graph where
  nodes : List Node
  offsets : List Nat
  edges : List Edge
  cells : List ((Int × Int) × List Nat)
  charging_nodes : List ChargingNode
deriving DecidableEq, Repr

/-- `Graph::node(index)`; out-of-range indices never occur in the runs the
claims are about, so the default node stands in for the Rust panic. -/
def Graph.node (g : Graph) (index : Nat) : Node :=
  g.nodes.getD index ⟨0, ⟨0, 0⟩⟩

/-- `Graph::coordinates(index)`. -/
def Graph.coordinates (g : Graph) (index : Nat) : Coordinates :=
  (g.node index).coordinates

/-- `Graph::edges(node_index)` (graph/mod.rs:139-143):
`&self.edges[offsets[u]..offsets[u+1]]`. -/
def Graph.edgesOf (g : Graph) (node_index : Nat) : List Edge :=
  (g.edges.drop (g.offsets.getD node_index 0)).take
    (g.offsets.getD (node_index + 1) 0 - g.offsets.getD node_index 0)

/-- Lookup in the cell map (`self.cells.get(&coordinates)` with the key
equality of `Coordinates`). -/
def cellsLookup (cells : List ((Int × Int) × List Nat)) (k : Int × Int) :
    Option (List Nat) :=
  (cells.find? (fun kv => kv.1 = k)).map (fun kv => kv.2)

/-! ## Spatial grid and nearest-neighbor search (graph/grid.rs) -/

/-- `grid::Neighbor`. -/
structure Neighbor where
  index : Option Nat
  dist : Nat
deriving DecidableEq, Repr

/-- `Neighbor::new()`. -/
def Neighbor.init : Neighbor := ⟨none, U32MAX⟩

/-- One step of the scan in `Graph::closest` (grid.rs:104-121): skip the node
unless some of its out-edges matches the mode, otherwise keep it when strictly
nearer than the running closest. -/
def closestStep (dist : Dist) (g : Graph) (coords : Coordinates) (mode : Transport)
    (closest : Neighbor) (i : Nat) : Neighbor :=
  if (g.edgesOf i).any (fun e => e.transport.contains mode) then
    let d := dist (g.coordinates i) coords
    if d < closest.dist then ⟨some i, d⟩ else closest
  else closest

/-- `Graph::closest(cells, coords, mode)` (grid.rs:100-123). -/
def Graph.closest (g : Graph) (dist : Dist) (cells : List (List Nat))
    (coords : Coordinates) (mode : Transport) : Neighbor :=
  cells.flatten.foldl (closestStep dist g coords mode) Neighbor.init

/-- The integer range `-r..=r` in iteration order. -/
def intRange (r : Nat) : List Int :=
  (List.range (2 * r + 1)).map (fun (k : Nat) => ((k : Int) - (r : Int)))

/-- The cell keys probed by `Graph::adjacent_cells` (grid.rs:67-89) at a given
radius, in iteration order.  The Rust code adds `i` (resp. `j`) whole degrees
to the query coordinate, which shifts the rounded cell key by `10 * i`
(resp. `10 * j`) key units; cells with `|i| ≠ r ∧ |j| ≠ r` are skipped. -/
def ringKeys (base : Int × Int) (r : Nat) : List (Int × Int) :=
  (intRange r).flatMap (fun i =>
    (intRange r).filterMap (fun j =>
      if i.natAbs ≠ r ∧ j.natAbs ≠ r then none
      else some (base.1 + 10 * i, base.2 + 10 * j)))

/-- `Graph::adjacent_cells(coords, radius)`: keep the probed cells that exist. -/
def Graph.adjacentCells (g : Graph) (coords : Coordinates) (radius : Nat) :
    List (List Nat) :=
  (ringKeys coords.key radius).filterMap (cellsLookup g.cells)

/-- The expanding-ring loop of `Graph::nearest_neighbor` (grid.rs:54-63) over a
list of radii: take the ring's best; if there is no running best, or the ring
strictly improves, continue with it, otherwise break. -/
def ringLoop (dist : Dist) (g : Graph) (coords : Coordinates) (mode : Transport) :
    List Nat → Neighbor → Neighbor
  | [], best => best
  | r :: rs, best =>
    let adjacent := g.closest dist (g.adjacentCells coords r) coords mode
    if best.index.isNone || adjacent.dist < best.dist then
      ringLoop dist g coords mode rs adjacent
    else best

/-- The radii tried by `Graph::nearest_neighbor`: Rust's exclusive range
`1..max_radius` with `max_radius = (cells.len() as f32 * 0.1) as i32`, whose
exact value is `⌊numCells / 10⌋`; so the radii are `1, …, numCells/10 - 1`. -/
def searchRadii (numCells : Nat) : List Nat := List.range' 1 (numCells / 10 - 1)

/-- `Graph::nearest_neighbor(coords, mode)` (grid.rs:46-65). -/
def Graph.nearestNeighbor (g : Graph) (dist : Dist) (coords : Coordinates)
    (mode : Transport) : Except String Nat :=
  match cellsLookup g.cells coords.key with
  | none => Except.error "Couldn't locate point on map"
  | some exactCell =>
    let best := g.closest dist [exactCell] coords mode
    let best := ringLoop dist g coords mode (searchRadii g.cells.length) best
    match best.index with
    | some i => Except.ok i
    | none => Except.error "No point matching transportation found"

/-! ## Shortest-path engine (graph/router.rs) -/

/-- `router::RouterNode`. -/
structure RouterNode where
  index : Nat
  cost : Nat
  heuristic : Nat
deriving DecidableEq, Repr

/-- `RouterNode::priority`. -/
def RouterNode.priority (self : RouterNode) : Nat := self.cost + self.heuristic

/-- `router::Route`. -/
structure Route where
  path : List Coordinates
  time : Nat
  distance : Nat
  visited_charging : Option (List Coordinates)
deriving DecidableEq, Repr

/-- Pop of the `BinaryHeap<RouterNode>` with the reversed `Ord`: remove an
element of minimal `priority`.  The Rust heap leaves ties unspecified; the
model deterministically takes the earliest-pushed minimal element (the runs
used in the theorems below have no relevant ties). -/
def popMin : List RouterNode → Option (RouterNode × List RouterNode)
  | [] => none
  | n :: ns =>
    match popMin ns with
    | none => some (n, [])
    | some (m, rest) =>
      if n.priority ≤ m.priority then some (n, ns) else some (m, n :: rest)

/-- The per-query router state (`Router::{queue, cost, prev}`); `prev` is the
sparse `StableVec<&Edge>` as an association list, later inserts shadowing
earlier ones. -/
structure SearchState where
  queue : List RouterNode
  cost : List Nat
  prev : List (Nat × Edge)
deriving DecidableEq, Repr

/-- `StableVec::insert(index, edge)`. -/
def prevInsert (prev : List (Nat × Edge)) (index : Nat) (e : Edge) :
    List (Nat × Edge) :=
  (index, e) :: prev

/-- Read of `self.prev[i]`; `none` means the slot was never inserted, in which
case the Rust indexing panics. -/
def prevLookup (prev : List (Nat × Edge)) (index : Nat) : Option Edge :=
  (prev.find? (fun p => p.1 = index)).map (fun p => p.2)

/-- The state of `Router::new` (router.rs:34-44). -/
def initState (g : Graph) : SearchState :=
  ⟨[], List.replicate g.nodes.length U32MAX, []⟩

/-- `Router::heuristic(from, to)` (router.rs:209-218). -/
def heuristic (dist : Dist) (g : Graph) (mode : Transport) (routing : Routing)
    (a b : Nat) : Nat :=
  if mode = Transport.Car ∧ routing = Routing.Time then 0
  else dist (g.coordinates a) (g.coordinates b)

/-- Result of `Router::shortest_path`: `panicked` models a Rust panic, and
`fuelOut` only marks exhaustion of the model's explicit fuel (the Rust code has
no corresponding behaviour). -/
inductive SPOutcome where
  | ok (route : Route)
  | error (msg : String)
  | panicked
  | fuelOut
deriving DecidableEq, Repr

/-- Relaxation of one out-edge (router.rs:83-98). -/
def relaxStep (dist : Dist) (g : Graph) (mode : Transport) (routing : Routing)
    (goalIndex : Nat) (nodeCost : Nat) (st : SearchState) (e : Edge) : SearchState :=
  if ¬ e.transport.contains mode then st
  else
    let cost := nodeCost + e.cost mode routing
    if cost < st.cost.getD e.target_index 0 then
      let h := heuristic dist g mode routing e.target_index goalIndex
      { queue := st.queue ++ [⟨e.target_index, cost, h⟩],
        cost := st.cost.set e.target_index cost,
        prev := prevInsert st.prev e.target_index e }
    else st

/-- The backtracking loop of `Router::backtrack_path` (router.rs:183-195).
`fuel` bounds the chain length; a failed `prev` read or a panicking
`Edge::time` yields `panicked`. -/
def backtrackLoop (g : Graph) (prev : List (Nat × Edge)) (startIndex : Nat)
    (mode : Transport) :
    Nat → Edge → List Coordinates → Nat → Nat → SPOutcome
  | 0, _, _, _, _ => SPOutcome.fuelOut
  | fuel + 1, edge, path, time, distance =>
    match edge.time mode with
    | none => SPOutcome.panicked
    | some t =>
      let distance := distance + edge.distance
      let time := time + t
      let path := path ++ [g.coordinates edge.target_index]
      match prevLookup prev edge.source_index with
      | none => SPOutcome.panicked
      | some e =>
        if e.source_index = startIndex then
          SPOutcome.ok ⟨path ++ [g.coordinates e.source_index], time, distance, none⟩
        else
          backtrackLoop g prev startIndex mode fuel e path time distance

/-- `Router::backtrack_path(start_index, goal_index)` (router.rs:177-198). -/
def backtrackPath (g : Graph) (prev : List (Nat × Edge)) (startIndex goalIndex : Nat)
    (mode : Transport) : SPOutcome :=
  match prevLookup prev goalIndex with
  | none => SPOutcome.panicked
  | some edge => backtrackLoop g prev startIndex mode (g.nodes.length + 1) edge [] 0 0

/-- The `while let Some(node) = queue.pop()` loop of `Router::shortest_path`
(router.rs:70-99), threading the router state. -/
def searchLoop (dist : Dist) (g : Graph) (mode : Transport) (routing : Routing)
    (startIndex goalIndex : Nat) (goalId : Int) :
    SearchState → Nat → SPOutcome × SearchState
  | st, 0 =>
    match popMin st.queue with
    | none => (SPOutcome.error "No path found", st)
    | some _ => (SPOutcome.fuelOut, st)
  | st, fuel + 1 =>
    match popMin st.queue with
    | none => (SPOutcome.error "No path found", st)
    | some (node, rest) =>
      let st := { st with queue := rest }
      if (g.node node.index).id = goalId then
        (backtrackPath g st.prev startIndex node.index mode, st)
      else if st.cost.getD node.index 0 < node.cost then
        searchLoop dist g mode routing startIndex goalIndex goalId st fuel
      else
        searchLoop dist g mode routing startIndex goalIndex goalId
          ((g.edgesOf node.index).foldl
            (relaxStep dist g mode routing goalIndex node.cost) st) fuel

/-- `Router::shortest_path(start, goal)` (router.rs:55-101), returning the
outcome together with the router state at the point of return. -/
def shortestPath (dist : Dist) (g : Graph) (mode : Transport) (routing : Routing)
    (start goal : Coordinates) (fuel : Nat) : SPOutcome × SearchState :=
  match g.nearestNeighbor dist start mode with
  | Except.error e => (SPOutcome.error e, initState g)
  | Except.ok startIndex =>
    match g.nearestNeighbor dist goal mode with
    | Except.error e => (SPOutcome.error e, initState g)
    | Except.ok goalIndex =>
      let startId := (g.node startIndex).id
      let goalId := (g.node goalIndex).id
      if startId = goalId then
        (SPOutcome.error "No path found, start is goal", initState g)
      else
        let st0 := initState g
        let st := { st0 with
          cost := st0.cost.set startIndex 0,
          queue := [⟨startIndex, 0, 0⟩] }
        searchLoop dist g mode routing startIndex goalIndex goalId st fuel

/-- The result of one `Router::shortest_path` call. -/
def runShortestPath (dist : Dist) (g : Graph) (mode : Transport) (routing : Routing)
    (start goal : Coordinates) (fuel : Nat) : SPOutcome :=
  (shortestPath dist g mode routing start goal fuel).1

/-! ## Range-constrained planner (router.rs:113-166 and rest/mod.rs:102-199) -/

/-- Whether a charging station passes the mode filter of
`Router::get_optimal_charging_station_coords` (router.rs:146). -/
def stationMatches (cn : ChargingNode) (mode : Transport) : Bool :=
  cn.charging_options.contains (Charging.ofTransport mode)

/-- Running comparison state of the station scan: `global_dist_from_start`,
`global_dist_to_goal`, `charging_coords`. -/
structure OptState where
  gds : Nat
  gdg : Nat
  coords : Coordinates
deriving DecidableEq, Repr

/-- One station of the scan in
`Router::get_optimal_charging_station_coords` (router.rs:144-164).  The
floating comparison `dist * 1.5 < range` is exactly `3 * dist < 2 * range`. -/
def optimalStep (dist : Dist) (mode : Transport) (actual_start actual_goal : Coordinates)
    (current_range : Nat) (acc : OptState) (cn : ChargingNode) : OptState :=
  if stationMatches cn mode then
    let dist_from_start := dist actual_start cn.coordinates
    let dist_to_goal := dist actual_goal cn.coordinates
    if 3 * dist_from_start < 2 * current_range ∧ acc.gds < dist_from_start ∧
        dist_to_goal < acc.gdg then
      ⟨dist_from_start, dist_to_goal, cn.coordinates⟩
    else acc
  else acc

/-- `Router::get_optimal_charging_station_coords` (router.rs:136-166). -/
def getOptimalChargingStationCoords (dist : Dist) (g : Graph) (mode : Transport)
    (actual_start actual_goal : Coordinates) (current_range : Nat) : Coordinates :=
  (g.charging_nodes.foldl
    (optimalStep dist mode actual_start actual_goal current_range)
    ⟨0, U32MAX, actual_start⟩).coords

/-- `Router::calc_route_with_charging_station` (router.rs:113-124). -/
def calcRouteWithChargingStation (dist : Dist) (g : Graph) (mode : Transport)
    (routing : Routing) (actual_start actual_goal : Coordinates)
    (current_range : Nat) (fuel : Nat) : SPOutcome :=
  let coords := getOptimalChargingStationCoords dist g mode actual_start actual_goal
    current_range
  match g.nearestNeighbor dist coords mode with
  | Except.error e => SPOutcome.error e
  | Except.ok nn =>
    runShortestPath dist g mode routing actual_start (g.coordinates nn) fuel

/-- Result of the `shortest_path` HTTP handler.  `searchFuelOut` marks
exhaustion of the fuel of an inner `Router::shortest_path` call, `fuelOut`
exhaustion of the fuel of the handler's own `while` loop; neither corresponds
to a behaviour of the Rust code. -/
inductive LoopOut where
  | ok (route : Route)
  | err (msg : String)
  | panicked
  | searchFuelOut
  | fuelOut
deriving DecidableEq, Repr

/-- The mutable locals of the handler's `while` loop (rest/mod.rs:105-116). -/
structure LoopState where
  required : Nat
  current : Nat
  start : Coordinates
  iter : Nat
  finalPath : List (List Coordinates)
  finalDistance : Nat
  finalTime : Nat
  visited : List Coordinates
deriving DecidableEq, Repr

/-- One execution of the body of `while required_range > current_range_in_meters`
(rest/mod.rs:116-173): either a terminal outcome (`inl`) or the next loop state
(`inr`). -/
def loopBody (dist : Dist) (g : Graph) (mode : Transport) (routing : Routing)
    (maxRange : Nat) (goal : Coordinates) (searchFuel : Nat) (st : LoopState) :
    LoopOut ⊕ LoopState :=
  match calcRouteWithChargingStation dist g mode routing st.start goal st.current
    searchFuel with
  | SPOutcome.error e => Sum.inl (LoopOut.err e)
  | SPOutcome.panicked => Sum.inl LoopOut.panicked
  | SPOutcome.fuelOut => Sum.inl LoopOut.searchFuelOut
  | SPOutcome.ok rtCharging =>
    let chargingCoords := getOptimalChargingStationCoords dist g mode st.start goal
      st.current
    let visited := st.visited ++ [chargingCoords]
    -- `start = visited_charging_coords.get(iter_count).unwrap()`
    let start := visited.getD st.iter ⟨0, 0⟩
    let finalDistance := st.finalDistance + rtCharging.distance
    let finalTime := st.finalTime + rtCharging.time
    let current := maxRange
    match rtCharging.path with
    | [] => Sum.inl LoopOut.panicked -- `path.remove(0)` on an empty Vec panics
    | _ :: pathTail =>
      let finalPath := st.finalPath ++ [pathTail]
      match runShortestPath dist g mode routing start goal searchFuel with
      | SPOutcome.error e => Sum.inl (LoopOut.err e)
      | SPOutcome.panicked => Sum.inl LoopOut.panicked
      | SPOutcome.fuelOut => Sum.inl LoopOut.searchFuelOut
      | SPOutcome.ok rtGoal =>
        let finalDistance :=
          if rtGoal.distance ≤ current then finalDistance + rtGoal.distance
          else finalDistance
        let finalTime :=
          if rtGoal.distance ≤ current then finalTime + rtGoal.time else finalTime
        let finalPath :=
          if rtGoal.distance ≤ current then finalPath ++ [rtGoal.path] else finalPath
        let required := rtGoal.distance
        let iter := st.iter + 1
        if 100 < iter then
          Sum.inl (LoopOut.err "Please enter reasonable ranges.")
        else
          Sum.inr ⟨required, current, start, iter, finalPath, finalDistance,
            finalTime, visited⟩

/-- The post-loop response assembly (rest/mod.rs:174-193). -/
def finalizeLoop (rt : Route) (st : LoopState) : LoopOut :=
  if 0 < st.visited.length then
    LoopOut.ok ⟨st.finalPath.reverse.flatten, st.finalTime, st.finalDistance,
      some st.visited⟩
  else
    LoopOut.ok ⟨rt.path, rt.time, rt.distance, none⟩

/-- The handler's `while` loop, with explicit fuel counting body executions. -/
def handlerLoop (dist : Dist) (g : Graph) (mode : Transport) (routing : Routing)
    (maxRange : Nat) (goal : Coordinates) (searchFuel : Nat) (rt : Route) :
    LoopState → Nat → LoopOut
  | st, 0 =>
    if st.required ≤ st.current then finalizeLoop rt st else LoopOut.fuelOut
  | st, fuel + 1 =>
    if st.required ≤ st.current then finalizeLoop rt st
    else
      match loopBody dist g mode routing maxRange goal searchFuel st with
      | Sum.inl out => out
      | Sum.inr st' => handlerLoop dist g mode routing maxRange goal searchFuel rt st' fuel

/-- The `shortest_path` handler (rest/mod.rs:82-200) from the initial
`Router::shortest_path` call on: ranges are already in meters (the request
parsing and `* 1000` happen at the wire boundary). -/
def handleShortestPath (dist : Dist) (g : Graph) (mode : Transport) (routing : Routing)
    (currentRange maxRange : Nat) (start goal : Coordinates)
    (searchFuel loopFuel : Nat) : LoopOut :=
  match runShortestPath dist g mode routing start goal searchFuel with
  | SPOutcome.error e => LoopOut.err e
  | SPOutcome.panicked => LoopOut.panicked
  | SPOutcome.fuelOut => LoopOut.searchFuelOut
  | SPOutcome.ok rt =>
    handlerLoop dist g mode routing maxRange goal searchFuel rt
      ⟨rt.distance, currentRange, start, 0, [], 0, 0, []⟩ loopFuel

/-! ## Definitions modelled from the specification text

These are *not* translations of the source: they state what the spec wording
claims, to be compared against the source translations above. -/

/-- Modelled from the spec (§4.4): `time(d) = round(d / (speed_kmh / 3.6))`,
rounded to a whole second, on exact reals. -/
def timeSpec (speedKmh d : Nat) : Nat :=
  (round ((d : ℚ) / ((speedKmh : ℚ) / (36 / 10)))).toNat

/-- Modelled from the spec (§4.4 Edge cost): in mode Car with objective Time
the cost is the edge's travel time, otherwise the distance in meters. -/
def costSpec (e : Edge) (mode : Transport) (routing : Routing) : Nat :=
  if mode = Transport.Car ∧ routing = Routing.Time then
    timeSpec e.max_speed.speed e.distance
  else e.distance

/-- Modelled from the claim C3 wording: at radius `r` the search examines the
cells whose cell-key offset satisfies `|Δx| = r ∨ |Δy| = r` — one cell-key
unit per step of `r`, interior cells skipped. -/
def claimRingKeys (base : Int × Int) (r : Nat) : List (Int × Int) :=
  (intRange r).flatMap (fun i =>
    (intRange r).filterMap (fun j =>
      if i.natAbs ≠ r ∧ j.natAbs ≠ r then none
      else some (base.1 + i, base.2 + j)))

/-- Modelled from the claim C3 wording: radii `1, …, ⌊0.1·|cells|⌋`, inclusive. -/
def claimSearchRadii (numCells : Nat) : List Nat := List.range' 1 (numCells / 10)

/-! ## Concrete instances used by witnesses and counterexamples

`exDist` is an executable stand-in for the (floating-point) haversine metric;
every function of the embedding is parametric in the metric, so any concrete
`Dist` may instantiate it. -/

/-- A concrete stand-in metric: the L1 distance on the fixed-point pairs. -/
def exDist : Dist := fun a b => (a.lat - b.lat).natAbs + (a.lon - b.lon).natAbs

/-- 36 km/h = 10 m/s: travel time is distance / 10. -/
def spdC : Kmh := ⟨36⟩

/-- Chain `0 – 1 – 2` with bidirectional 100 m edges, all in cell `(0,0)`.
The optimal route from node 0 to node 2 uses the two edges `0→1` and `1→2`. -/
def gC1 : Graph :=
  { nodes := [⟨1, ⟨0, 0⟩⟩, ⟨2, ⟨100, 0⟩⟩, ⟨3, ⟨200, 0⟩⟩],
    offsets := [0, 1, 3, 4],
    edges := [⟨0, 1, Transport.All, 100, spdC⟩, ⟨1, 0, Transport.All, 100, spdC⟩,
              ⟨1, 2, Transport.All, 100, spdC⟩, ⟨2, 1, Transport.All, 100, spdC⟩],
    cells := [((0, 0), [0, 1, 2])],
    charging_nodes := [] }

/-- The edge `0 → 1` of `gC1` — the first edge of the optimal route. -/
def eC1a : Edge := ⟨0, 1, Transport.All, 100, spdC⟩

/-- The edge `1 → 2` of `gC1` — the last edge of the optimal route. -/
def eC1b : Edge := ⟨1, 2, Transport.All, 100, spdC⟩

/-- Two nodes joined by one edge in each direction: the optimal route between
them is a single edge. -/
def gC9 : Graph :=
  { nodes := [⟨1, ⟨0, 0⟩⟩, ⟨2, ⟨100, 0⟩⟩],
    offsets := [0, 1, 2],
    edges := [⟨0, 1, Transport.All, 100, spdC⟩, ⟨1, 0, Transport.All, 100, spdC⟩],
    cells := [((0, 0), [0, 1])],
    charging_nodes := [] }

/-- The edge `0 → 1` of `gC9`. -/
def eC9 : Edge := ⟨0, 1, Transport.All, 100, spdC⟩

/-- Bidirectional chain `0 – 1 – 2 – 3 – 4 – 5` with edge lengths
`100, 50, 50, 1000, 1500`, one cell, and charging stations at the coordinates
of nodes 1 and 3.  With `current_range = max_range = 1000` every leg to the
goal stays longer than the range, and the station choice alternates between
the two stations forever, so only the iteration guard stops the planner. -/
def gC2 : Graph :=
  { nodes := [⟨1, ⟨0, 0⟩⟩, ⟨2, ⟨100, 0⟩⟩, ⟨3, ⟨150, 0⟩⟩, ⟨4, ⟨200, 0⟩⟩,
              ⟨5, ⟨1200, 0⟩⟩, ⟨6, ⟨2700, 0⟩⟩],
    offsets := [0, 1, 3, 5, 7, 9, 10],
    edges := [⟨0, 1, Transport.All, 100, spdC⟩,
              ⟨1, 0, Transport.All, 100, spdC⟩, ⟨1, 2, Transport.All, 50, spdC⟩,
              ⟨2, 1, Transport.All, 50, spdC⟩, ⟨2, 3, Transport.All, 50, spdC⟩,
              ⟨3, 2, Transport.All, 50, spdC⟩, ⟨3, 4, Transport.All, 1000, spdC⟩,
              ⟨4, 3, Transport.All, 1000, spdC⟩, ⟨4, 5, Transport.All, 1500, spdC⟩,
              ⟨5, 4, Transport.All, 1500, spdC⟩],
    cells := [((0, 0), [0, 1, 2, 3, 4, 5])],
    charging_nodes := [⟨100, ⟨100, 0⟩, Charging.CarBike⟩,
                       ⟨101, ⟨200, 0⟩, Charging.CarBike⟩] }

/-- Query cell `(0,0)` holds only a node without Car edges; an eligible node
sits in cell `(1,0)`, one key unit away; 18 remote dummy cells bring the cell
count to 20 so that the ring loop runs radius 1. -/
def gC3 : Graph :=
  { nodes := [⟨1, ⟨0, 0⟩⟩, ⟨2, ⟨1000000, 0⟩⟩] ++
      (List.range 18).map (fun (k : Nat) =>
        ⟨(100 : Int) + (k : Int), ⟨((50 : Int) + (k : Int)) * 1000000, 50000000⟩⟩),
    offsets := [0, 1] ++ List.replicate 19 2,
    edges := [⟨0, 1, Transport.Walk, 100, spdC⟩, ⟨1, 0, Transport.All, 100, spdC⟩],
    cells := [(((0 : Int), (0 : Int)), [0]), (((1 : Int), (0 : Int)), [1])] ++
      (List.range 18).map (fun (k : Nat) =>
        (((50 : Int) + (k : Int), (50 : Int)), ([2 + k] : List Nat))),
    charging_nodes := [] }

/-- Two stations; the second is farther from the start (hence the lexicographic
optimum of claim C4) but also farther from the goal, so the scan keeps the
first one. -/
def gC4 : Graph :=
  { nodes := [], offsets := [0], edges := [], cells := [],
    charging_nodes := [⟨100, ⟨500, 0⟩, Charging.CarBike⟩,
                       ⟨101, ⟨600, 200⟩, Charging.CarBike⟩] }

/-! ## Helper lemmas -/

/-- One relaxation step never touches the `cost` or `prev` slot of a node whose
cost is already `0`, because every candidate cost is a `Nat` and the update
requires a strict decrease. -/
theorem relaxStep_start_inv (dist : Dist) (g : Graph) (mode : Transport)
    (routing : Routing) (gi nodeCost si : Nat) (st : SearchState) (e : Edge)
    (hc : st.cost.getD si 0 = 0) (hp : prevLookup st.prev si = none) :
    (relaxStep dist g mode routing gi nodeCost st e).cost.getD si 0 = 0 ∧
      prevLookup (relaxStep dist g mode routing gi nodeCost st e).prev si = none := by
  unfold relaxStep
  split
  · exact ⟨hc, hp⟩
  · dsimp only
    split
    · rename_i hlt
      by_cases hts : e.target_index = si
      · rw [hts, hc] at hlt; omega
      · refine ⟨?_, ?_⟩
        · simpa [List.getD_eq_getElem?_getD, List.getElem?_set_ne hts] using hc
        · simpa [prevInsert, prevLookup, List.find?_cons, hts] using hp
    · exact ⟨hc, hp⟩

/-- `relaxStep_start_inv` extended along the fold over a node's out-edges. -/
theorem foldl_relax_start_inv (dist : Dist) (g : Graph) (mode : Transport)
    (routing : Routing) (gi nodeCost si : Nat) (l : List Edge) :
    ∀ (st : SearchState), st.cost.getD si 0 = 0 → prevLookup st.prev si = none →
    (l.foldl (relaxStep dist g mode routing gi nodeCost) st).cost.getD si 0 = 0 ∧
      prevLookup (l.foldl (relaxStep dist g mode routing gi nodeCost) st).prev si
        = none := by
  induction l with
  | nil => intro st hc hp; exact ⟨hc, hp⟩
  | cons e es ih =>
    intro st hc hp
    simp only [List.foldl_cons]
    obtain ⟨h1, h2⟩ := relaxStep_start_inv dist g mode routing gi nodeCost si st e hc hp
    exact ih _ h1 h2

/-- Throughout the search loop, a node whose cost is `0` (the start node) is
never relaxed: its `prev` slot stays empty in the returned router state. -/
theorem searchLoop_start_inv (dist : Dist) (g : Graph) (mode : Transport)
    (routing : Routing) (si gi : Nat) (gid : Int) (fuel : Nat) :
    ∀ (st : SearchState), st.cost.getD si 0 = 0 → prevLookup st.prev si = none →
    (searchLoop dist g mode routing si gi gid st fuel).2.cost.getD si 0 = 0 ∧
      prevLookup (searchLoop dist g mode routing si gi gid st fuel).2.prev si
        = none := by
  induction fuel with
  | zero =>
    intro st hc hp
    unfold searchLoop
    cases popMin st.queue <;> exact ⟨hc, hp⟩
  | succ f ih =>
    intro st hc hp
    unfold searchLoop
    cases hq : popMin st.queue with
    | none => exact ⟨hc, hp⟩
    | some p =>
      obtain ⟨node, rest⟩ := p
      dsimp only
      split
      · exact ⟨hc, hp⟩
      · split
        · exact ih _ hc hp
        · exact ih _
            (foldl_relax_start_inv dist g mode routing gi node.cost si
              (g.edgesOf node.index) ⟨rest, st.cost, st.prev⟩ hc hp).1
            (foldl_relax_start_inv dist g mode routing gi node.cost si
              (g.edgesOf node.index) ⟨rest, st.cost, st.prev⟩ hc hp).2

/-- One step of the `Graph::closest` scan only ever records a node some of
whose out-edges matches the mode. -/
theorem closestStep_matches (dist : Dist) (g : Graph) (coords : Coordinates)
    (mode : Transport) (n : Neighbor) (i u : Nat)
    (h : ∀ v, n.index = some v →
      (g.edgesOf v).any (fun e => e.transport.contains mode) = true)
    (hu : (closestStep dist g coords mode n i).index = some u) :
    (g.edgesOf u).any (fun e => e.transport.contains mode) = true := by
  unfold closestStep at hu
  split at hu
  · rename_i hmatch
    dsimp only at hu
    split at hu
    · simp only at hu
      obtain rfl : i = u := by simpa using hu
      exact hmatch
    · exact h u hu
  · exact h u hu

/-- `closestStep_matches` extended along the fold over the scanned cells. -/
theorem foldl_closest_matches (dist : Dist) (g : Graph) (coords : Coordinates)
    (mode : Transport) (l : List Nat) :
    ∀ (n : Neighbor),
    (∀ v, n.index = some v →
      (g.edgesOf v).any (fun e => e.transport.contains mode) = true) →
    ∀ u, (l.foldl (closestStep dist g coords mode) n).index = some u →
      (g.edgesOf u).any (fun e => e.transport.contains mode) = true := by
  induction l with
  | nil => intro n h u hu; exact h u hu
  | cons i is ih =>
    intro n h u hu
    simp only [List.foldl_cons] at hu
    exact ih _ (fun v hv => closestStep_matches dist g coords mode n i v h hv) u hu

/-- Every node returned by `Graph::closest` matches the mode. -/
theorem closest_matches (dist : Dist) (g : Graph) (cells : List (List Nat))
    (coords : Coordinates) (mode : Transport) (u : Nat)
    (hu : (g.closest dist cells coords mode).index = some u) :
    (g.edgesOf u).any (fun e => e.transport.contains mode) = true := by
  unfold Graph.closest at hu
  exact foldl_closest_matches dist g coords mode cells.flatten Neighbor.init
    (fun v hv => by simp [Neighbor.init] at hv) u hu

/-- Every node returned by the ring loop matches the mode. -/
theorem ringLoop_matches (dist : Dist) (g : Graph) (coords : Coordinates)
    (mode : Transport) (radii : List Nat) :
    ∀ (best : Neighbor),
    (∀ v, best.index = some v →
      (g.edgesOf v).any (fun e => e.transport.contains mode) = true) →
    ∀ u, (ringLoop dist g coords mode radii best).index = some u →
      (g.edgesOf u).any (fun e => e.transport.contains mode) = true := by
  induction radii with
  | nil => intro best h u hu; exact h u hu
  | cons r rs ih =>
    intro best h u hu
    unfold ringLoop at hu
    dsimp only at hu
    split at hu
    · exact ih _ (fun v hv =>
        closest_matches dist g (g.adjacentCells coords r) coords mode v hv) u hu
    · exact h u hu

/-- For positive speeds the integer computation of `Kmh::time` agrees with the
spec's formula `round(d / (speed/3.6))` evaluated over exact rationals. -/
theorem kmh_time_eq_timeSpec (s d : Nat) (hs : 0 < s) :
    Kmh.time ⟨s⟩ d = timeSpec s d := by
  have hs0 : ¬ ((Kmh.mk s).speed = 0) := by simpa using Nat.pos_iff_ne_zero.mp hs
  have hsQ : ((s : ℚ)) ≠ 0 := Nat.cast_ne_zero.mpr (Nat.pos_iff_ne_zero.mp hs)
  unfold Kmh.time timeSpec natRoundDiv
  rw [if_neg hs0]
  have h1 : (d : ℚ) / ((s : ℚ) / (36 / 10)) + 1 / 2
      = ((36 * d + 5 * s : ℕ) : ℚ) / ((10 * s : ℕ) : ℚ) := by
    push_cast
    field_simp
    ring
  rw [show 2 * (18 * d) + 5 * (Kmh.mk s).speed = 36 * d + 5 * s from by ring,
    show 2 * (5 * (Kmh.mk s).speed) = 10 * s from by ring,
    round_eq, h1, Int.floor_toNat, Nat.floor_div_eq_div]

/-! ## Claim theorems -/

/-- Claim C6: restricted to `{Car, Bike, All, CarBike}`, `Transport::contains a b`
holds exactly when `a = All`, `a = b`, or `a = CarBike` with `b ∈ {Car, Bike}`. -/
theorem spC6 (a b : Transport)
    (ha : a ∈ [Transport.Car, Transport.Bike, Transport.All, Transport.CarBike])
    (hb : b ∈ [Transport.Car, Transport.Bike, Transport.All, Transport.CarBike]) :
    Transport.contains a b = true ↔
      a = Transport.All ∨ a = b ∨
        (a = Transport.CarBike ∧ (b = Transport.Car ∨ b = Transport.Bike)) := by
  fin_cases ha <;> fin_cases hb <;> decide

/-- Witness for `spC6` at `a = CarBike`, `b = Bike`. -/
theorem spC6_witness :
    Transport.CarBike ∈
        [Transport.Car, Transport.Bike, Transport.All, Transport.CarBike] ∧
      Transport.Bike ∈
        [Transport.Car, Transport.Bike, Transport.All, Transport.CarBike] ∧
      (Transport.contains Transport.CarBike Transport.Bike = true ↔
        Transport.CarBike = Transport.All ∨ Transport.CarBike = Transport.Bike ∨
          (Transport.CarBike = Transport.CarBike ∧
            (Transport.Bike = Transport.Car ∨ Transport.Bike = Transport.Bike))) :=
  ⟨by decide, by decide,
    spC6 Transport.CarBike Transport.Bike (by decide) (by decide)⟩

/-- Claim C7: `Edge::cost` is the whole-second travel time
`round(distance / (speed/3.6))` for mode Car with objective Time, and the
distance in meters otherwise.  `costSpec`/`timeSpec` restate the spec's wording
over exact rationals; positivity of the stored speed rules out the
division-by-zero corner that neither formulation defines. -/
theorem spC7 (e : Edge) (m : Transport) (r : Routing)
    (h : 0 < e.max_speed.speed) :
    e.cost m r = costSpec e m r := by
  unfold Edge.cost costSpec
  split
  · exact kmh_time_eq_timeSpec e.max_speed.speed e.distance h
  · rfl

/-- Witness for `spC7`: the spec's own example `Kmh(50).time(200) = 14`. -/
theorem spC7_witness :
    0 < (Edge.mk 0 1 Transport.All 200 ⟨50⟩).max_speed.speed ∧
      (Edge.mk 0 1 Transport.All 200 ⟨50⟩).cost Transport.Car Routing.Time =
        costSpec (Edge.mk 0 1 Transport.All 200 ⟨50⟩) Transport.Car Routing.Time ∧
      (Edge.mk 0 1 Transport.All 200 ⟨50⟩).cost Transport.Car Routing.Time = 14 :=
  ⟨by decide, spC7 (Edge.mk 0 1 Transport.All 200 ⟨50⟩) Transport.Car Routing.Time
    (by decide), by decide⟩

/-- Claim C8: when both snaps succeed and the snapped nodes carry the same OSM
id, `shortest_path` returns the "start is goal" error and the router state is
exactly the freshly initialised one — no search step has run. -/
theorem spC8 (dist : Dist) (g : Graph) (mode : Transport) (routing : Routing)
    (start goal : Coordinates) (fuel si gi : Nat)
    (hs : g.nearestNeighbor dist start mode = Except.ok si)
    (hg : g.nearestNeighbor dist goal mode = Except.ok gi)
    (hid : (g.node si).id = (g.node gi).id) :
    shortestPath dist g mode routing start goal fuel =
      (SPOutcome.error "No path found, start is goal", initState g) := by
  unfold shortestPath
  rw [hs, hg]
  simp [hid]

/-- Witness for `spC8`: on `gC9`, the coordinates `(0,0)` and `(1,0)` both snap
to node 0. -/
theorem spC8_witness :
    gC9.nearestNeighbor exDist ⟨0, 0⟩ Transport.Car = Except.ok 0 ∧
      gC9.nearestNeighbor exDist ⟨1, 0⟩ Transport.Car = Except.ok 0 ∧
      (gC9.node 0).id = (gC9.node 0).id ∧
      shortestPath exDist gC9 Transport.Car Routing.Distance ⟨0, 0⟩ ⟨1, 0⟩ 20 =
        (SPOutcome.error "No path found, start is goal", initState gC9) :=
  ⟨rfl, rfl, rfl,
    spC8 exDist gC9 Transport.Car Routing.Distance ⟨0, 0⟩ ⟨1, 0⟩ 20 0 0 rfl rfl rfl⟩

/-- Claim C10: `Charging::contains(CarBike, b)` is true for every `b`,
including `Charging::None`; hence every CarBike station passes the range
planner's station filter for any transport mode. -/
theorem spC10 :
    (∀ b : Charging, Charging.contains Charging.CarBike b = true) ∧
      ∀ (cn : ChargingNode) (m : Transport),
        cn.charging_options = Charging.CarBike → stationMatches cn m = true := by
  refine ⟨fun b => by cases b <;> rfl, fun cn m h => ?_⟩
  unfold stationMatches
  rw [h]
  cases Charging.ofTransport m <;> rfl

/-- Witness for `spC10`: a CarBike station passes the filter even for mode
Walk, which maps to `Charging::None`. -/
theorem spC10_witness :
    (ChargingNode.mk 7 ⟨0, 0⟩ Charging.CarBike).charging_options =
        Charging.CarBike ∧
      stationMatches (ChargingNode.mk 7 ⟨0, 0⟩ Charging.CarBike) Transport.Walk
        = true :=
  ⟨rfl, spC10.2 (ChargingNode.mk 7 ⟨0, 0⟩ Charging.CarBike) Transport.Walk rfl⟩

/-- Claim C1 (code bug): on `gC1` the optimal route from node 0 to node 2 is
the `prev` chain `eC1b` (looked up at the goal index 2) followed by `eC1a`
(looked up at index 1), whose edge distances sum to 200 m; but the returned
route has `distance = 100` (and `time = 10` instead of 20): the backtracking
loop breaks before accumulating the edge that leaves the start node, and the
returned path also skips that edge's target vertex `(100, 0)`. -/
theorem spC1 :
    runShortestPath exDist gC1 Transport.Car Routing.Distance ⟨0, 0⟩ ⟨200, 0⟩ 20 =
        SPOutcome.ok ⟨[⟨200, 0⟩, ⟨0, 0⟩], 10, 100, none⟩ ∧
      prevLookup (shortestPath exDist gC1 Transport.Car Routing.Distance
        ⟨0, 0⟩ ⟨200, 0⟩ 20).2.prev 2 = some eC1b ∧
      prevLookup (shortestPath exDist gC1 Transport.Car Routing.Distance
        ⟨0, 0⟩ ⟨200, 0⟩ 20).2.prev 1 = some eC1a ∧
      eC1a.source_index = 0 ∧ eC1b.source_index = 1 ∧ eC1b.target_index = 2 ∧
      eC1a.distance + eC1b.distance = 200 := by
  refine ⟨by decide, by decide, by decide, rfl, rfl, rfl, rfl⟩

/-- Claim C9: the `prev` slot of a node with cost 0 (the start) is never
inserted by the search loop; backtracking a chain whose goal edge leaves the
start node therefore reads an empty slot and panics; and on `gC9`, where the
optimal route is a single edge, the whole `shortest_path` run panics. -/
theorem spC9 :
    (∀ (dist : Dist) (g : Graph) (mode : Transport) (routing : Routing)
        (si gi : Nat) (gid : Int) (st : SearchState) (fuel : Nat),
        st.cost.getD si 0 = 0 → prevLookup st.prev si = none →
        prevLookup (searchLoop dist g mode routing si gi gid st fuel).2.prev si
          = none) ∧
      (∀ (g : Graph) (prev : List (Nat × Edge)) (si gi : Nat) (e : Edge)
          (mode : Transport),
        prevLookup prev gi = some e → e.source_index = si →
        prevLookup prev si = none →
        backtrackPath g prev si gi mode = SPOutcome.panicked) ∧
      runShortestPath exDist gC9 Transport.Car Routing.Distance ⟨0, 0⟩ ⟨100, 0⟩ 20
        = SPOutcome.panicked := by
  refine ⟨?_, ?_, by decide⟩
  · intro dist g mode routing si gi gid st fuel hc hp
    exact (searchLoop_start_inv dist g mode routing si gi gid fuel st hc hp).2
  · intro g prev si gi e mode hg hsrc hsi
    unfold backtrackPath
    rw [hg]
    cases ht : e.time mode with
    | none => simp [backtrackLoop, ht]
    | some t => simp [backtrackLoop, ht, hsrc, hsi]

/-- Witness for `spC9`: both hypothesis-bearing parts applied to the one-edge
situation of `gC9` — the search loop started at node 0 never fills `prev[0]`,
and backtracking the chain `prev = [(1, eC9)]` from goal 1 panics. -/
theorem spC9_witness :
    ((⟨[⟨0, 0, 0⟩], [0, U32MAX], []⟩ : SearchState).cost.getD 0 0 = 0 ∧
      prevLookup (⟨[⟨0, 0, 0⟩], [0, U32MAX], []⟩ : SearchState).prev 0 = none ∧
      prevLookup (searchLoop exDist gC9 Transport.Car Routing.Distance 0 1 2
        ⟨[⟨0, 0, 0⟩], [0, U32MAX], []⟩ 20).2.prev 0 = none) ∧
      prevLookup [(1, eC9)] 1 = some eC9 ∧ eC9.source_index = 0 ∧
      prevLookup [(1, eC9)] 0 = none ∧
      backtrackPath gC9 [(1, eC9)] 0 1 Transport.Car = SPOutcome.panicked :=
  ⟨⟨rfl, rfl,
      spC9.1 exDist gC9 Transport.Car Routing.Distance 0 1 2
        ⟨[⟨0, 0, 0⟩], [0, U32MAX], []⟩ 20 rfl rfl⟩,
    rfl, rfl, rfl,
    spC9.2.1 gC9 [(1, eC9)] 0 1 eC9 Transport.Car rfl rfl rfl⟩

/-- Counterexample to claim C2 as stated: on `gC2` (with
`current_range = max_range = 1000` m) every leg to the goal exceeds the range,
yet giving the loop fuel for exactly 100 body executions exhausts the fuel —
the loop has not aborted after 100 iterations; with fuel for one more body
execution it aborts with the "Please enter reasonable ranges." error, i.e. on
its 101st iteration. -/
theorem spC2_counterexample :
    handleShortestPath exDist gC2 Transport.Car Routing.Distance 1000 1000
        ⟨0, 0⟩ ⟨2700, 0⟩ 50 100 = LoopOut.fuelOut ∧
      handleShortestPath exDist gC2 Transport.Car Routing.Distance 1000 1000
        ⟨0, 0⟩ ⟨2700, 0⟩ 50 101 =
        LoopOut.err "Please enter reasonable ranges." := by
  constructor
  · decide
  · decide

/-- Counterexample to claim C3 as stated: the ring at radius 1 probes keys at
offsets of 10 cell-key units (whole degrees), not 1; the key one unit away is
claimed to be examined but is not; the radii stop one short of
`⌊0.1·|cells|⌋`; and on `gC3` the snap misses the eligible node in the cell
one key unit away, failing with "no node for this mode". -/
theorem spC3_counterexample :
    ringKeys (0, 0) 1 ≠ claimRingKeys (0, 0) 1 ∧
      ((1 : Int), (0 : Int)) ∈ claimRingKeys (0, 0) 1 ∧
      ((1 : Int), (0 : Int)) ∉ ringKeys (0, 0) 1 ∧
      searchRadii 20 ≠ claimSearchRadii 20 ∧
      gC3.nearestNeighbor exDist ⟨0, 0⟩ Transport.Car =
        Except.error "No point matching transportation found" ∧
      cellsLookup gC3.cells (1, 0) = some [1] ∧
      (gC3.edgesOf 1).any (fun e => e.transport.contains Transport.Car) = true := by
  refine ⟨by decide, by decide, by decide, by decide, rfl, rfl, rfl⟩

/-- Counterexample to claim C4 as stated: on `gC4` the scan returns the first
station `(500, 0)` although the second station passes the range filter and
lies strictly farther from the start — the returned station is not the
filtered maximum of distance-from-start. -/
theorem spC4_counterexample :
    getOptimalChargingStationCoords exDist gC4 Transport.Car ⟨0, 0⟩ ⟨1000, 0⟩
        10000 = ⟨500, 0⟩ ∧
      (⟨101, ⟨600, 200⟩, Charging.CarBike⟩ : ChargingNode) ∈ gC4.charging_nodes ∧
      stationMatches ⟨101, ⟨600, 200⟩, Charging.CarBike⟩ Transport.Car = true ∧
      3 * exDist ⟨0, 0⟩ ⟨600, 200⟩ < 2 * 10000 ∧
      exDist ⟨0, 0⟩ ⟨500, 0⟩ < exDist ⟨0, 0⟩ ⟨600, 200⟩ := by
  refine ⟨rfl, by decide, rfl, by decide, by decide⟩

/-- The post-loop response assembly always returns a route. -/
theorem finalizeLoop_ne_fuelOut (rt : Route) (st : LoopState) :
    finalizeLoop rt st ≠ LoopOut.fuelOut := by
  unfold finalizeLoop
  split <;> simp

/-- A terminal outcome of the loop body is never the outer fuel marker. -/
theorem loopBody_inl_ne_fuelOut (dist : Dist) (g : Graph) (mode : Transport)
    (routing : Routing) (maxRange : Nat) (goal : Coordinates) (searchFuel : Nat)
    (st : LoopState) (out : LoopOut)
    (h : loopBody dist g mode routing maxRange goal searchFuel st = Sum.inl out) :
    out ≠ LoopOut.fuelOut := by
  unfold loopBody at h
  dsimp only at h
  repeat' split at h
  all_goals cases h <;> simp

/-- A continuing execution of the loop body increments the iteration counter
by exactly one and can only continue while the counter stays at most 100. -/
theorem loopBody_inr_iter (dist : Dist) (g : Graph) (mode : Transport)
    (routing : Routing) (maxRange : Nat) (goal : Coordinates) (searchFuel : Nat)
    (st st' : LoopState)
    (h : loopBody dist g mode routing maxRange goal searchFuel st = Sum.inr st') :
    st'.iter = st.iter + 1 ∧ st'.iter ≤ 100 := by
  unfold loopBody at h
  dsimp only at h
  repeat' split at h
  all_goals cases h <;> exact ⟨rfl, by dsimp only; omega⟩

/-- The handler's `while` loop runs at most 101 body executions: fuel covering
`101 - iter` executions is never exhausted. -/
theorem handlerLoop_ne_fuelOut (dist : Dist) (g : Graph) (mode : Transport)
    (routing : Routing) (maxRange : Nat) (goal : Coordinates) (searchFuel : Nat)
    (rt : Route) (fuel : Nat) :
    ∀ st : LoopState, st.iter ≤ 100 → 101 ≤ st.iter + fuel →
    handlerLoop dist g mode routing maxRange goal searchFuel rt st fuel ≠
      LoopOut.fuelOut := by
  induction fuel with
  | zero => intro st h1 h2; omega
  | succ f ih =>
    intro st h1 h2
    unfold handlerLoop
    split
    · exact finalizeLoop_ne_fuelOut rt st
    · cases hb : loopBody dist g mode routing maxRange goal searchFuel st with
      | inl out =>
        exact loopBody_inl_ne_fuelOut dist g mode routing maxRange goal
          searchFuel st out hb
      | inr st' =>
        obtain ⟨hi1, hi2⟩ := loopBody_inr_iter dist g mode routing maxRange goal
          searchFuel st st' hb
        exact ih st' (by omega) (by omega)

/-- Claim C2, amended: the range-planner loop always terminates, but the guard
(`iter_count > 100`, checked after the increment) lets the body run 101 times,
not 100: fuel covering 101 body executions is never exhausted, for any graph,
metric, mode and ranges. -/
theorem spC2 (dist : Dist) (g : Graph) (mode : Transport) (routing : Routing)
    (currentRange maxRange : Nat) (start goal : Coordinates)
    (searchFuel loopFuel : Nat) (h : 101 ≤ loopFuel) :
    handleShortestPath dist g mode routing currentRange maxRange start goal
      searchFuel loopFuel ≠ LoopOut.fuelOut := by
  unfold handleShortestPath
  cases hr : runShortestPath dist g mode routing start goal searchFuel with
  | ok rt =>
    exact handlerLoop_ne_fuelOut dist g mode routing maxRange goal searchFuel rt
      loopFuel ⟨rt.distance, currentRange, start, 0, [], 0, 0, []⟩
      (by simp) (by simpa using h)
  | error e => simp
  | panicked => simp
  | fuelOut => simp

/-- Witness for `spC2` on the `gC2` scenario with fuel 101. -/
theorem spC2_witness :
    101 ≤ 101 ∧
      handleShortestPath exDist gC2 Transport.Car Routing.Distance 1000 1000
        ⟨0, 0⟩ ⟨2700, 0⟩ 50 101 ≠ LoopOut.fuelOut :=
  ⟨le_refl 101,
    spC2 exDist gC2 Transport.Car Routing.Distance 1000 1000 ⟨0, 0⟩ ⟨2700, 0⟩
      50 101 (le_refl 101)⟩

/-- Membership in the Rust range `-r..=r`. -/
theorem mem_intRange (r : Nat) (x : Int) :
    x ∈ intRange r ↔ -(r : Int) ≤ x ∧ x ≤ (r : Int) := by
  unfold intRange
  rw [List.mem_map]
  constructor
  · rintro ⟨k, hk, rfl⟩
    rw [List.mem_range] at hk
    omega
  · intro h
    refine ⟨(x + r).toNat, List.mem_range.mpr (by omega), by omega⟩

/-- Claim C3, amended: the ring at radius `r` probes exactly the cells whose
key offset is `(10·i, 10·j)` with `|i| ≤ r`, `|j| ≤ r` and `|i| = r ∨ |j| = r`
(10 cell-key units — one whole degree — per step of `r`); the radii tried are
`1, …, ⌊0.1·|cells|⌋ - 1` (the Rust range `1..max_radius` is exclusive); and
once a running best exists, the loop stops at the first ring whose best
candidate is no strict improvement. -/
theorem spC3 :
    (∀ (base : Int × Int) (r : Nat) (k : Int × Int),
        k ∈ ringKeys base r ↔ ∃ i j : Int, i.natAbs ≤ r ∧ j.natAbs ≤ r ∧
          (i.natAbs = r ∨ j.natAbs = r) ∧
          k = (base.1 + 10 * i, base.2 + 10 * j)) ∧
      (∀ (n r : Nat), r ∈ searchRadii n ↔ 1 ≤ r ∧ r + 1 ≤ n / 10) ∧
      (∀ (dist : Dist) (g : Graph) (coords : Coordinates) (mode : Transport)
          (best : Neighbor) (r : Nat) (rs : List Nat),
        best.index.isSome = true →
        ¬ (g.closest dist (g.adjacentCells coords r) coords mode).dist < best.dist →
        ringLoop dist g coords mode (r :: rs) best = best) := by
  refine ⟨?_, ?_, ?_⟩
  · intro base r k
    unfold ringKeys
    simp only [List.mem_flatMap, List.mem_filterMap, mem_intRange]
    constructor
    · rintro ⟨i, hi, j, hj, hif⟩
      by_cases hc : i.natAbs ≠ r ∧ j.natAbs ≠ r
      · rw [if_pos hc] at hif
        cases hif
      · rw [if_neg hc] at hif
        injection hif with hif
        exact ⟨i, j, by omega, by omega, by omega, hif.symm⟩
    · rintro ⟨i, j, hi, hj, hor, rfl⟩
      refine ⟨i, by omega, j, by omega, ?_⟩
      rw [if_neg (by omega)]
  · intro n r
    unfold searchRadii
    rw [List.mem_range'_1]
    omega
  · intro dist g coords mode best r rs h1 h2
    unfold ringLoop
    dsimp only
    rw [if_neg]
    simp only [Bool.or_eq_true, Option.isNone_iff_eq_none, decide_eq_true_eq]
    push_neg
    refine ⟨?_, Nat.le_of_not_lt h2⟩
    intro hn
    rw [hn] at h1
    cases h1

/-- Witness for `spC3`: on `gC3` the ring at radius 1 finds nothing, so the
loop keeps a pre-existing best untouched. -/
theorem spC3_witness :
    (Neighbor.mk (some 0) 5).index.isSome = true ∧
      ¬ (gC3.closest exDist (gC3.adjacentCells ⟨0, 0⟩ 1) ⟨0, 0⟩
          Transport.Car).dist < (Neighbor.mk (some 0) 5).dist ∧
      ringLoop exDist gC3 ⟨0, 0⟩ Transport.Car [1] (Neighbor.mk (some 0) 5) =
        Neighbor.mk (some 0) 5 :=
  ⟨rfl, by decide,
    spC3.2.2 exDist gC3 ⟨0, 0⟩ Transport.Car (Neighbor.mk (some 0) 5) 1 []
      rfl (by decide)⟩

/-- The station scan keeps its initial accumulator or a station of the list
that passed both the mode filter and the range filter with a positive
crow-flies distance from the start. -/
theorem optimalFold_inv (dist : Dist) (mode : Transport) (s goal : Coordinates)
    (range : Nat) (all : List ChargingNode) :
    ∀ (l : List ChargingNode) (acc : OptState),
    (∀ cn ∈ l, cn ∈ all) →
    (acc.coords = s ∨ ∃ cn ∈ all, stationMatches cn mode = true ∧
      3 * dist s cn.coordinates < 2 * range ∧ 0 < dist s cn.coordinates ∧
      acc.coords = cn.coordinates) →
    ((l.foldl (optimalStep dist mode s goal range) acc).coords = s ∨
      ∃ cn ∈ all, stationMatches cn mode = true ∧
        3 * dist s cn.coordinates < 2 * range ∧ 0 < dist s cn.coordinates ∧
        (l.foldl (optimalStep dist mode s goal range) acc).coords
          = cn.coordinates) := by
  intro l
  induction l with
  | nil => intro acc _ hacc; exact hacc
  | cons cn l ih =>
    intro acc hsub hacc
    simp only [List.foldl_cons]
    refine ih _ (fun x hx => hsub x (List.mem_cons_of_mem cn hx)) ?_
    unfold optimalStep
    split
    · rename_i hmatch
      dsimp only
      split
      · rename_i hcond
        exact Or.inr ⟨cn, hsub cn (List.mem_cons_self cn l), hmatch,
          hcond.1, by omega, rfl⟩
      · exact hacc
    · exact hacc

/-- Claim C4, amended: `get_optimal_charging_station_coords` scans the
registry in order and keeps a candidate only when it passes the mode filter
and `1.5 · dist_from_start < current_range` and strictly increases the
running distance-from-start and strictly decreases the running
distance-to-goal; hence the result is either the start coordinate itself or
the coordinate of some station that passes the mode filter and the range
filter at a positive distance from the start — not in general the
lexicographic optimum. -/
theorem spC4 (dist : Dist) (g : Graph) (mode : Transport)
    (s goal : Coordinates) (range : Nat) :
    getOptimalChargingStationCoords dist g mode s goal range = s ∨
      ∃ cn ∈ g.charging_nodes, stationMatches cn mode = true ∧
        3 * dist s cn.coordinates < 2 * range ∧ 0 < dist s cn.coordinates ∧
        getOptimalChargingStationCoords dist g mode s goal range
          = cn.coordinates := by
  unfold getOptimalChargingStationCoords
  exact optimalFold_inv dist mode s goal range g.charging_nodes g.charging_nodes
    ⟨0, U32MAX, s⟩ (fun x hx => hx) (Or.inl rfl)

/-- Claim C5: a node returned by the nearest-neighbor snap always has an
out-edge whose transport set contains the requested mode. -/
theorem spC5 (dist : Dist) (g : Graph) (coords : Coordinates) (mode : Transport)
    (u : Nat) (h : g.nearestNeighbor dist coords mode = Except.ok u) :
    ∃ e ∈ g.edgesOf u, e.transport.contains mode = true := by
  unfold Graph.nearestNeighbor at h
  cases hc : cellsLookup g.cells coords.key with
  | none => rw [hc] at h; cases h
  | some cell =>
    rw [hc] at h
    dsimp only at h
    cases hb : (ringLoop dist g coords mode (searchRadii g.cells.length)
        (g.closest dist [cell] coords mode)).index with
    | none => rw [hb] at h; cases h
    | some i =>
      rw [hb] at h
      injection h with h
      subst h
      have := ringLoop_matches dist g coords mode (searchRadii g.cells.length)
        (g.closest dist [cell] coords mode)
        (fun v hv => closest_matches dist g [cell] coords mode v hv) i hb
      simpa [List.any_eq_true] using this

/-- Witness for `spC5`: snapping `(0,0)` on `gC1` returns node 0, which has a
Car-compatible out-edge. -/
theorem spC5_witness :
    gC1.nearestNeighbor exDist ⟨0, 0⟩ Transport.Car = Except.ok 0 ∧
      ∃ e ∈ gC1.edgesOf 0, e.transport.contains Transport.Car = true :=
  ⟨rfl, spC5 exDist gC1 ⟨0, 0⟩ Transport.Car 0 rfl⟩

end EMaps
